import Mathlib

/-!
Verification of the dosage / terpene-pairing model in `cdes_fs/models.py`.

Python `Decimal` values are modelled by their exact rational value (`ℚ`).
Python's `decimal` module computes every arithmetic operation exactly and then
rounds the result to the context precision, which is 28 significant digits with
ROUND_HALF_EVEN in the default context used by the source.  Value-wise this is
`decRound28` below: the exact rational result is rounded to 28 significant
decimal digits, ties to even.  Comparisons and equality on `Decimal` are exact
value comparisons, which coincide with `ℚ` comparisons.
-/

namespace CdesFs

/-- Round a rational to the nearest integer, ties to even
(the coefficient-level rounding step of ROUND_HALF_EVEN). -/
def rndHalfEven (x : ℚ) : ℤ :=
  if x - (⌊x⌋ : ℚ) < 1/2 then ⌊x⌋
  else if (1/2 : ℚ) < x - (⌊x⌋ : ℚ) then ⌊x⌋ + 1
  else if ⌊x⌋ % 2 = 0 then ⌊x⌋ else ⌊x⌋ + 1

/-- Round a nonzero rational to 28 significant decimal digits, half-even;
zero is returned unchanged.  `Int.log 10 |q|` is the adjusted exponent of the
value, so `q * 10 ^ (27 - e)` is the 28-digit coefficient before rounding. -/
def decRound28 (q : ℚ) : ℚ :=
  if q = 0 then 0
  else
    ((rndHalfEven (q * (10 : ℚ) ^ ((27 : ℤ) - Int.log 10 |q|)) : ℤ) : ℚ) /
      (10 : ℚ) ^ ((27 : ℤ) - Int.log 10 |q|)

/-- Python `Decimal` addition under the default context (exact sum, rounded). -/
def decAdd (a b : ℚ) : ℚ := decRound28 (a + b)

/-- Python `Decimal` multiplication under the default context. -/
def decMul (a b : ℚ) : ℚ := decRound28 (a * b)

/-- Python `Decimal` division under the default context (exact quotient,
rounded to 28 significant digits). -/
def decDiv (a b : ℚ) : ℚ := decRound28 (a / b)

/-- A rational is representable as a 28-significant-digit decimal. -/
def Rep (q : ℚ) : Prop :=
  ∃ m k : ℤ, q = (m : ℚ) / (10 : ℚ) ^ k ∧ |m| < 10 ^ (28 : ℕ)

lemma rep_zero : Rep 0 := ⟨0, 0, by norm_num, by norm_num⟩

lemma decRound28_zero : decRound28 0 = 0 := by simp [decRound28]

lemma rndHalfEven_intCast (n : ℤ) : rndHalfEven (n : ℚ) = n := by
  unfold rndHalfEven
  rw [Int.floor_intCast]
  norm_num

lemma rndHalfEven_bounds (x : ℚ) : ⌊x⌋ ≤ rndHalfEven x ∧ rndHalfEven x ≤ ⌊x⌋ + 1 := by
  unfold rndHalfEven
  split_ifs <;> omega

lemma rndHalfEven_of_lt_half (x : ℚ) (n : ℤ) (h1 : (n : ℚ) ≤ x)
    (h2 : x < (n : ℚ) + 1/2) : rndHalfEven x = n := by
  have hf : ⌊x⌋ = n := Int.floor_eq_iff.mpr ⟨h1, by linarith⟩
  unfold rndHalfEven
  rw [hf, if_pos (by linarith : x - (n : ℚ) < 1/2)]

lemma intLog_abs_eq (q : ℚ) (e : ℤ) (h0 : q ≠ 0)
    (h1 : (10 : ℚ) ^ e ≤ |q|) (h2 : |q| < (10 : ℚ) ^ (e + 1)) :
    Int.log 10 |q| = e := by
  have hpos : (0 : ℚ) < |q| := abs_pos.mpr h0
  have h1' : ((10 : ℕ) : ℚ) ^ e ≤ |q| := by exact_mod_cast h1
  have h2' : |q| < ((10 : ℕ) : ℚ) ^ (e + 1) := by exact_mod_cast h2
  have hle : e ≤ Int.log 10 |q| := (Int.zpow_le_iff_le_log (by norm_num) hpos).mp h1'
  have hlt : Int.log 10 |q| < e + 1 := (Int.lt_zpow_iff_log_lt (by norm_num) hpos).mp h2'
  omega

lemma decRound28_of_mul_int (q : ℚ) (h0 : q ≠ 0) (n : ℤ)
    (hx : q * (10 : ℚ) ^ ((27 : ℤ) - Int.log 10 |q|) = (n : ℚ)) :
    decRound28 q = q := by
  have hs : (10 : ℚ) ^ ((27 : ℤ) - Int.log 10 |q|) ≠ 0 := zpow_ne_zero _ (by norm_num)
  unfold decRound28
  rw [if_neg h0, hx, rndHalfEven_intCast, ← hx, mul_div_assoc, div_self hs, mul_one]

lemma mul_scale_int (q : ℚ) (m k e : ℤ) (hq : q = (m : ℚ) / (10 : ℚ) ^ k)
    (hle : e ≤ 27 - k) :
    q * (10 : ℚ) ^ ((27 : ℤ) - e) = ((m * 10 ^ (27 - e - k).toNat : ℤ) : ℚ) := by
  have h10 : (10 : ℚ) ≠ 0 := by norm_num
  have hj : ((27 - e - k).toNat : ℤ) = 27 - e - k := Int.toNat_of_nonneg (by omega)
  rw [Int.cast_mul, Int.cast_pow, Int.cast_ofNat,
    ← zpow_natCast (10 : ℚ) ((27 - e - k).toNat), hj, hq,
    div_mul_eq_mul_div, mul_div_assoc, ← zpow_sub₀ h10]

/-- Any 28-digit-representable value is a fixed point of the rounding. -/
lemma decRound28_of_rep (q : ℚ) (h : Rep q) : decRound28 q = q := by
  obtain ⟨m, k, hq, hm⟩ := h
  rcases eq_or_ne q 0 with rfl | h0
  · exact decRound28_zero
  have h10 : (10 : ℚ) ≠ 0 := by norm_num
  have hkpos : (0 : ℚ) < (10 : ℚ) ^ k := zpow_pos (by norm_num) k
  have hpos : (0 : ℚ) < |q| := abs_pos.mpr h0
  have hmq : |(m : ℚ)| < (10 : ℚ) ^ (28 : ℕ) := by
    rw [← Int.cast_abs]
    exact_mod_cast hm
  have h2 : |q| < ((10 : ℕ) : ℚ) ^ ((28 : ℤ) - k) := by
    rw [hq, abs_div, abs_of_pos hkpos, div_lt_iff₀ hkpos]
    push_cast
    rw [← zpow_add₀ h10]
    have hek : (28 : ℤ) - k + k = ((28 : ℕ) : ℤ) := by norm_num
    rw [hek, zpow_natCast]
    exact hmq
  have hloglt : Int.log 10 |q| < (28 : ℤ) - k :=
    (Int.lt_zpow_iff_log_lt (by norm_num) hpos).mp h2
  exact decRound28_of_mul_int q h0 _
    (mul_scale_int q m k (Int.log 10 |q|) hq (by omega))

lemma decRound28_unfold (q : ℚ) (h0 : q ≠ 0) :
    decRound28 q =
      ((rndHalfEven (q * (10 : ℚ) ^ ((27 : ℤ) - Int.log 10 |q|)) : ℤ) : ℚ) /
        (10 : ℚ) ^ ((27 : ℤ) - Int.log 10 |q|) := by
  unfold decRound28
  rw [if_neg h0]

lemma pow10_div_shift (e : ℤ) :
    ((10 : ℚ) ^ (28 : ℕ)) / (10 : ℚ) ^ ((27 : ℤ) - e) =
      ((10 : ℚ) ^ (27 : ℕ)) / (10 : ℚ) ^ ((26 : ℤ) - e) := by
  have h10 : (10 : ℚ) ≠ 0 := by norm_num
  rw [← zpow_natCast (10 : ℚ) 28, ← zpow_natCast (10 : ℚ) 27,
    div_eq_div_iff (zpow_ne_zero _ h10) (zpow_ne_zero _ h10),
    ← zpow_add₀ h10, ← zpow_add₀ h10]
  congr 1
  push_cast
  ring

/-- Outputs of the rounding are 28-digit representable. -/
lemma rep_decRound28 (q : ℚ) : Rep (decRound28 q) := by
  rcases eq_or_ne q 0 with rfl | h0
  · rw [decRound28_zero]; exact rep_zero
  have h10 : (10 : ℚ) ≠ 0 := by norm_num
  have hpos : (0 : ℚ) < |q| := abs_pos.mpr h0
  set e := Int.log 10 |q| with he
  set s : ℚ := (10 : ℚ) ^ ((27 : ℤ) - e) with hsdef
  have hspos : (0 : ℚ) < s := zpow_pos (by norm_num) _
  set x : ℚ := q * s with hxdef
  set n : ℤ := rndHalfEven x with hndef
  have hout : decRound28 q = (n : ℚ) / s := decRound28_unfold q h0
  have hqub : |q| < ((10 : ℕ) : ℚ) ^ (e + 1) := Int.lt_zpow_succ_log_self (by norm_num) |q|
  have hxub : |x| < (10 : ℚ) ^ (28 : ℕ) := by
    rw [hxdef, abs_mul, abs_of_pos hspos]
    have h1 : |q| * s < ((10 : ℕ) : ℚ) ^ (e + 1) * s := mul_lt_mul_of_pos_right hqub hspos
    have h2 : ((10 : ℕ) : ℚ) ^ (e + 1) * s = (10 : ℚ) ^ (28 : ℕ) := by
      rw [hsdef]
      push_cast
      rw [← zpow_add₀ h10, ← zpow_natCast (10 : ℚ) 28]
      congr 1
      ring
    rw [h2] at h1
    exact h1
  have hxlt := abs_lt.mp hxub
  have hfub : ⌊x⌋ < (10 : ℤ) ^ (28 : ℕ) := by
    rw [Int.floor_lt]
    push_cast
    exact hxlt.2
  have hflb : -((10 : ℤ) ^ (28 : ℕ)) ≤ ⌊x⌋ := by
    rw [Int.le_floor]
    push_cast
    linarith [hxlt.1]
  have hb := rndHalfEven_bounds x
  have hP : (10 : ℤ) ^ (28 : ℕ) = 10000000000000000000000000000 := by norm_num
  have htri : (-(10 ^ (28 : ℕ)) < n ∧ n < 10 ^ (28 : ℕ)) ∨
      n = 10 ^ (28 : ℕ) ∨ n = -(10 ^ (28 : ℕ)) := by
    have hb1 := hb.1
    have hb2 := hb.2
    rw [hP] at hfub hflb ⊢
    omega
  have c1 : ((10 ^ (28 : ℕ) : ℤ) : ℚ) = (10 : ℚ) ^ (28 : ℕ) := by
    rw [Int.cast_pow]; norm_num
  have c2 : ((10 ^ (27 : ℕ) : ℤ) : ℚ) = (10 : ℚ) ^ (27 : ℕ) := by
    rw [Int.cast_pow]; norm_num
  rcases htri with ⟨hl, hr⟩ | hn | hn
  · exact ⟨n, 27 - e, by rw [hout, hsdef], abs_lt.mpr ⟨hl, hr⟩⟩
  · refine ⟨10 ^ (27 : ℕ), 26 - e, ?_, by norm_num⟩
    rw [hout, hn, hsdef, c1, c2, pow10_div_shift]
  · refine ⟨-(10 ^ (27 : ℕ)), 26 - e, ?_, ?_⟩
    · rw [hout, hn, hsdef, Int.cast_neg, Int.cast_neg, c1, c2, neg_div, neg_div,
        pow10_div_shift]
    · rw [abs_neg]
      norm_num

/-- Concrete evaluation: round-down case, positive argument, with the scale
exponent given as a natural number. -/
lemma decRound28_down_pos (q : ℚ) (e n : ℤ) (u : ℕ) (hu : (27 : ℤ) - e = (u : ℤ))
    (hq : 0 < q) (h1 : (10 : ℚ) ^ e ≤ q) (h2 : q < (10 : ℚ) ^ (e + 1))
    (h3 : (n : ℚ) ≤ q * (10 : ℚ) ^ u) (h4 : q * (10 : ℚ) ^ u < (n : ℚ) + 1/2) :
    decRound28 q = (n : ℚ) / (10 : ℚ) ^ u := by
  have h0 : q ≠ 0 := ne_of_gt hq
  have habs : |q| = q := abs_of_pos hq
  have hlog : Int.log 10 |q| = e := by
    apply intLog_abs_eq q e h0 <;> rw [habs]
    · exact h1
    · exact h2
  rw [decRound28_unfold q h0, hlog, hu, zpow_natCast,
    rndHalfEven_of_lt_half _ n h3 h4]

/-- Concrete evaluation: exact case, positive argument. -/
lemma decRound28_exact_pos (q : ℚ) (e n : ℤ) (u : ℕ) (hu : (27 : ℤ) - e = (u : ℤ))
    (hq : 0 < q) (h1 : (10 : ℚ) ^ e ≤ q) (h2 : q < (10 : ℚ) ^ (e + 1))
    (hx : q * (10 : ℚ) ^ u = (n : ℚ)) : decRound28 q = q := by
  have h0 : q ≠ 0 := ne_of_gt hq
  have habs : |q| = q := abs_of_pos hq
  have hlog : Int.log 10 |q| = e := by
    apply intLog_abs_eq q e h0 <;> rw [habs]
    · exact h1
    · exact h2
  apply decRound28_of_mul_int q h0 n
  rw [hlog, hu, zpow_natCast]
  exact hx

/-- Negative inputs round to negative outputs (the rounded coefficient has
magnitude at least `10 ^ 27`, so the sign survives). -/
lemma decRound28_neg (q : ℚ) (hq : q < 0) : decRound28 q < 0 := by
  have h0 : q ≠ 0 := ne_of_lt hq
  have h10 : (10 : ℚ) ≠ 0 := by norm_num
  have hpos : (0 : ℚ) < |q| := abs_pos.mpr h0
  set e := Int.log 10 |q| with he
  set s : ℚ := (10 : ℚ) ^ ((27 : ℤ) - e) with hsdef
  have hspos : (0 : ℚ) < s := zpow_pos (by norm_num) _
  set x : ℚ := q * s with hxdef
  have hlow : ((10 : ℕ) : ℚ) ^ e ≤ |q| := Int.zpow_log_le_self (by norm_num) hpos
  have hxle : x ≤ -((10 : ℚ) ^ (27 : ℕ)) := by
    have habs : |q| = -q := abs_of_neg hq
    rw [habs] at hlow
    have h1 : q ≤ -(((10 : ℕ) : ℚ) ^ e) := by linarith
    have h2 : x ≤ -(((10 : ℕ) : ℚ) ^ e) * s := by
      rw [hxdef]
      exact mul_le_mul_of_nonneg_right h1 (le_of_lt hspos)
    have h3 : -(((10 : ℕ) : ℚ) ^ e) * s = -((10 : ℚ) ^ (27 : ℕ)) := by
      rw [hsdef, neg_mul]
      push_cast
      rw [← zpow_add₀ h10, ← zpow_natCast (10 : ℚ) 27]
      congr 2
      ring
    rw [h3] at h2
    exact h2
  have hb := rndHalfEven_bounds x
  set n : ℤ := rndHalfEven x with hndef
  have hnq : (n : ℚ) ≤ x + 1 := by
    have h1 : (n : ℚ) ≤ ((⌊x⌋ : ℤ) : ℚ) + 1 := by exact_mod_cast hb.2
    have h2 : ((⌊x⌋ : ℤ) : ℚ) ≤ x := Int.floor_le x
    linarith
  have hbig : (1 : ℚ) < (10 : ℚ) ^ (27 : ℕ) := by norm_num
  have hnneg : (n : ℚ) < 0 := by linarith
  rw [decRound28_unfold q h0]
  exact div_neg_of_neg_of_pos hnneg hspos

/-!
Data model of `cdes_fs/models.py`.  Python `str` is `String`, `int` is `ℤ`,
`bool` is `Bool`, `Decimal` is `ℚ` (see above), `Optional[T]` is `Option T`,
`list[T]` is `List T`, `UUID` is modelled as `ℕ`, and `date` / `datetime` as
simple records (they are inert data here).  Dataclass default factories
(`uuid4`, `utcnow`) produce some value at construction; the embedding
quantifies over all field values, which subsumes them.
-/

/-- Python `datetime.date`, inert data in this model. -/
structure PyDate where
  year : ℤ
  month : ℤ
  day : ℤ
deriving DecidableEq

/-- `class IngredientType(str, Enum)`. -/
inductive IngredientType
  | flower | concentrate | distillate | isolate | tincture | butter
  | oil | rso | kief | hash | rosin | sauce
deriving DecidableEq

/-- The wire string of each `IngredientType` member. -/
def IngredientType.value : IngredientType → String
  | .flower => "flower"
  | .concentrate => "concentrate"
  | .distillate => "distillate"
  | .isolate => "isolate"
  | .tincture => "tincture"
  | .butter => "butter"
  | .oil => "oil"
  | .rso => "rso"
  | .kief => "kief"
  | .hash => "hash"
  | .rosin => "rosin"
  | .sauce => "sauce"

/-- Models the Python enum call `IngredientType(s)`: `some` member on a
vocabulary string, `none` for the `ValueError` raised on anything else. -/
def IngredientType.fromString (s : String) : Option IngredientType :=
  if s = "flower" then some .flower
  else if s = "concentrate" then some .concentrate
  else if s = "distillate" then some .distillate
  else if s = "isolate" then some .isolate
  else if s = "tincture" then some .tincture
  else if s = "butter" then some .butter
  else if s = "oil" then some .oil
  else if s = "rso" then some .rso
  else if s = "kief" then some .kief
  else if s = "hash" then some .hash
  else if s = "rosin" then some .rosin
  else if s = "sauce" then some .sauce
  else none

/-- `class IngredientForm(str, Enum)`. -/
inductive IngredientForm
  | solid | liquid | powder | paste | crystal
deriving DecidableEq

/-- `class RecipeCategory(str, Enum)`. -/
inductive RecipeCategory
  | appetizer | main_course | dessert | beverage | snack
  | sauce | baked_good | confection | savory
deriving DecidableEq

/-- The wire string of each `RecipeCategory` member. -/
def RecipeCategory.value : RecipeCategory → String
  | .appetizer => "appetizer"
  | .main_course => "main_course"
  | .dessert => "dessert"
  | .beverage => "beverage"
  | .snack => "snack"
  | .sauce => "sauce"
  | .baked_good => "baked_good"
  | .confection => "confection"
  | .savory => "savory"

/-- Models the Python enum call `RecipeCategory(s)`: `some` member on a
vocabulary string, `none` for the `ValueError` raised on anything else. -/
def RecipeCategory.fromString (s : String) : Option RecipeCategory :=
  if s = "appetizer" then some .appetizer
  else if s = "main_course" then some .main_course
  else if s = "dessert" then some .dessert
  else if s = "beverage" then some .beverage
  else if s = "snack" then some .snack
  else if s = "sauce" then some .sauce
  else if s = "baked_good" then some .baked_good
  else if s = "confection" then some .confection
  else if s = "savory" then some .savory
  else none

/-- `class DietaryRestriction(str, Enum)`. -/
inductive DietaryRestriction
  | vegan | vegetarian | gluten_free | dairy_free | nut_free
  | soy_free | keto | paleo | low_sugar | organic
deriving DecidableEq

/-- `class AllergenType(str, Enum)`. -/
inductive AllergenType
  | milk | eggs | fish | shellfish | tree_nuts | peanuts
  | wheat | soy | sesame
deriving DecidableEq

/-- `@dataclass CannabisCOAReference`. -/
structure CannabisCOAReference where
  coa_id : String
  batch_number : String
  strain_name : String
  lab_name : Option String
  test_date : Option PyDate
  coa_url : Option String
  thc_percentage : ℚ
  cbd_percentage : ℚ
  total_cannabinoids : ℚ
  passed_microbial : Bool
  passed_pesticides : Bool
  passed_heavy_metals : Bool
  passed_residual_solvents : Bool
  harvest_date : Option PyDate
  expiration_date : Option PyDate

/-- `@dataclass TerpeneProfile`. -/
structure TerpeneProfile where
  coa_reference : CannabisCOAReference
  myrcene : ℚ
  limonene : ℚ
  caryophyllene : ℚ
  pinene : ℚ
  linalool : ℚ
  humulene : ℚ
  terpinolene : ℚ
  ocimene : ℚ
  primary_flavors : List String
  aroma_notes : List String
  pairs_well_with : List String
  cuisine_types : List String

/-- `TerpeneProfile.suggest_pairings`: sequential threshold rules each
extending the accumulator, mirroring the source line by line.
`Decimal("0.5")`, `Decimal("0.3")`, `Decimal("0.2")` have the exact values
`5/10`, `3/10`, `2/10`. -/
def TerpeneProfile.suggest_pairings (self : TerpeneProfile) : List String :=
  let pairings : List String := []
  let pairings := if self.limonene > (5 : ℚ)/10 then
    pairings ++ ["citrus desserts", "seafood", "light salads"] else pairings
  let pairings := if self.myrcene > (5 : ℚ)/10 then
    pairings ++ ["mangoes", "tropical fruits", "herbal dishes"] else pairings
  let pairings := if self.caryophyllene > (3 : ℚ)/10 then
    pairings ++ ["black pepper", "spicy foods", "dark chocolate"] else pairings
  let pairings := if self.pinene > (3 : ℚ)/10 then
    pairings ++ ["rosemary", "pine nuts", "Mediterranean"] else pairings
  let pairings := if self.linalool > (2 : ℚ)/10 then
    pairings ++ ["lavender", "honey", "floral desserts"] else pairings
  pairings

/-- `@dataclass CannabisIngredient`. -/
structure CannabisIngredient where
  id : ℕ
  name : String
  ingredient_type : IngredientType
  form : IngredientForm
  coa_reference : Option CannabisCOAReference
  terpene_profile : Option TerpeneProfile
  thc_mg_per_gram : ℚ
  cbd_mg_per_gram : ℚ
  is_decarboxylated : Bool
  decarb_temp_f : Option ℤ
  decarb_time_minutes : Option ℤ
  storage_temp_min_f : ℤ
  storage_temp_max_f : ℤ
  shelf_life_days : ℤ
  light_sensitive : Bool
  supplier_id : Option String
  supplier_name : Option String
  lot_number : Option String
  received_date : Option PyDate

/-- `CannabisIngredient.calculate_thc_dose`:
`return self.thc_mg_per_gram * grams` (decimal multiplication). -/
def CannabisIngredient.calculate_thc_dose (self : CannabisIngredient) (grams : ℚ) : ℚ :=
  decMul self.thc_mg_per_gram grams

/-- `CannabisIngredient.calculate_cbd_dose`:
`return self.cbd_mg_per_gram * grams` (decimal multiplication). -/
def CannabisIngredient.calculate_cbd_dose (self : CannabisIngredient) (grams : ℚ) : ℚ :=
  decMul self.cbd_mg_per_gram grams

/-- `@dataclass Ingredient` (non-cannabis). -/
structure Ingredient where
  id : ℕ
  name : String
  category : String
  unit : String
  allergens : List AllergenType
  dietary_info : List DietaryRestriction
  supplier_id : Option String

/-- `@dataclass RecipeStep`. -/
structure RecipeStep where
  step_number : ℤ
  instruction : String
  duration_minutes : Option ℤ
  temperature_f : Option ℤ
  tips : Option String
  max_temp_warning : Bool
  decarb_step : Bool

/-- `@dataclass NutritionInfo`. -/
structure NutritionInfo where
  calories : ℤ
  fat_grams : ℚ
  carbs_grams : ℚ
  protein_grams : ℚ
  fiber_grams : ℚ
  sugar_grams : ℚ
  sodium_mg : ℤ

/-- `@dataclass DosageInfo`. -/
structure DosageInfo where
  thc_mg_per_serving : ℚ
  cbd_mg_per_serving : ℚ
  total_thc_mg : ℚ
  total_cbd_mg : ℚ
  servings : ℤ
  onset_time_minutes : ℤ
  duration_hours : ℤ
  recommended_for : String
  high_dose_warning : Bool

/-- The dict returned by `DosageInfo.calculate_per_serving`
(fixed keys `thc_mg` and `cbd_mg`). -/
structure PerServingDose where
  thc_mg : ℚ
  cbd_mg : ℚ

/-- `DosageInfo.calculate_per_serving`: each value is
`total / self.servings if self.servings else Decimal("0")`
(Python truthiness of an `int`: nonzero). -/
def DosageInfo.calculate_per_serving (self : DosageInfo) : PerServingDose :=
  { thc_mg := if self.servings ≠ 0 then decDiv self.total_thc_mg (self.servings : ℚ) else 0
    cbd_mg := if self.servings ≠ 0 then decDiv self.total_cbd_mg (self.servings : ℚ) else 0 }

/-- `@dataclass Recipe`. -/
structure Recipe where
  id : ℕ
  name : String
  description : Option String
  category : RecipeCategory
  cannabis_ingredients : List (CannabisIngredient × ℚ)
  ingredients : List (Ingredient × String)
  steps : List RecipeStep
  prep_time_minutes : ℤ
  cook_time_minutes : ℤ
  total_time_minutes : ℤ
  servings : ℤ
  dosage_info : DosageInfo
  dietary_labels : List DietaryRestriction
  allergens : List AllergenType
  nutrition : Option NutritionInfo
  difficulty : String
  chef_notes : Option String
  terpene_pairing_notes : Option String
  author : Option String
  created_at : ℤ
  updated_at : ℤ

/-- The `total_thc` accumulator of `Recipe.calculate_total_dosage`:
starts at `Decimal("0.00")` and adds `ingredient.calculate_thc_dose(amount)`
for each `(ingredient, amount)` pair, in order. -/
def Recipe.totalThc (self : Recipe) : ℚ :=
  self.cannabis_ingredients.foldl
    (fun acc p => decAdd acc (p.1.calculate_thc_dose p.2)) 0

/-- The `total_cbd` accumulator of `Recipe.calculate_total_dosage`. -/
def Recipe.totalCbd (self : Recipe) : ℚ :=
  self.cannabis_ingredients.foldl
    (fun acc p => decAdd acc (p.1.calculate_cbd_dose p.2)) 0

/-- `Recipe.calculate_total_dosage`: sums the per-ingredient doses, then
builds a fresh `DosageInfo`.  Each conditional mirrors
`expr if self.servings else fallback` in the source; unset `DosageInfo`
fields take their dataclass defaults (`onset_time_minutes=60`,
`duration_hours=6`, `recommended_for=""`). -/
def Recipe.calculate_total_dosage (self : Recipe) : DosageInfo :=
  { thc_mg_per_serving :=
      if self.servings ≠ 0 then decDiv self.totalThc (self.servings : ℚ) else 0
    cbd_mg_per_serving :=
      if self.servings ≠ 0 then decDiv self.totalCbd (self.servings : ℚ) else 0
    total_thc_mg := self.totalThc
    total_cbd_mg := self.totalCbd
    servings := self.servings
    onset_time_minutes := 60
    duration_hours := 6
    recommended_for := ""
    high_dose_warning :=
      if self.servings ≠ 0 then
        decide ((10 : ℚ) < decDiv self.totalThc (self.servings : ℚ))
      else false }

/-- The `category` field as stored by the plain-dataclass constructor when an
arbitrary string is passed for it: dataclasses perform no runtime checking,
so the raw value is stored as-is. -/
structure RecipeCategoryCell where
  category : String

/-- Models the Python call `Recipe(category=v)` for an arbitrary string `v`:
plain `@dataclass` construction stores the given value without validating it
against the `RecipeCategory` vocabulary (it is total and never raises). -/
def Recipe.constructWithRawCategory (v : String) : RecipeCategoryCell :=
  { category := v }

/-!
Evaluation helpers and test fixtures.
-/

lemma decRound28_small (q : ℚ) (m : ℤ) (hq : q = (m : ℚ))
    (hm : |m| < 10 ^ (28 : ℕ)) : decRound28 q = q :=
  decRound28_of_rep q ⟨m, 0, by rw [hq]; norm_num, hm⟩

lemma decMul_eval (a b r : ℚ) (m : ℤ) (hr : a * b = r) (hm : r = (m : ℚ))
    (hb : |m| < 10 ^ (28 : ℕ)) : decMul a b = r := by
  unfold decMul
  rw [hr]
  exact decRound28_small r m hm hb

lemma decAdd_eval (a b r : ℚ) (m : ℤ) (hr : a + b = r) (hm : r = (m : ℚ))
    (hb : |m| < 10 ^ (28 : ℕ)) : decAdd a b = r := by
  unfold decAdd
  rw [hr]
  exact decRound28_small r m hm hb

lemma decDiv_eval (a b r : ℚ) (m : ℤ) (hr : a / b = r) (hm : r = (m : ℚ))
    (hb : |m| < 10 ^ (28 : ℕ)) : decDiv a b = r := by
  unfold decDiv
  rw [hr]
  exact decRound28_small r m hm hb

/-- A cannabis ingredient with the given THC potency and all remaining fields
at their dataclass defaults. -/
def mkIngredient (thc : ℚ) : CannabisIngredient :=
  { id := 0, name := "", ingredient_type := .distillate, form := .liquid,
    coa_reference := none, terpene_profile := none,
    thc_mg_per_gram := thc, cbd_mg_per_gram := 0,
    is_decarboxylated := true, decarb_temp_f := none, decarb_time_minutes := none,
    storage_temp_min_f := 60, storage_temp_max_f := 70, shelf_life_days := 365,
    light_sensitive := true, supplier_id := none, supplier_name := none,
    lot_number := none, received_date := none }

/-- The dataclass defaults of `DosageInfo`. -/
def defaultDosageInfo : DosageInfo :=
  { thc_mg_per_serving := 0, cbd_mg_per_serving := 0, total_thc_mg := 0,
    total_cbd_mg := 0, servings := 1, onset_time_minutes := 60,
    duration_hours := 6, recommended_for := "", high_dose_warning := false }

/-- A recipe with the given cannabis ingredients and servings, all remaining
fields at their dataclass defaults. -/
def mkRecipe (ings : List (CannabisIngredient × ℚ)) (servings : ℤ) : Recipe :=
  { id := 0, name := "", description := none, category := .dessert,
    cannabis_ingredients := ings, ingredients := [], steps := [],
    prep_time_minutes := 0, cook_time_minutes := 0, total_time_minutes := 0,
    servings := servings, dosage_info := defaultDosageInfo,
    dietary_labels := [], allergens := [], nutrition := none,
    difficulty := "medium", chef_notes := none, terpene_pairing_notes := none,
    author := none, created_at := 0, updated_at := 0 }

/-- A COA reference fixture with all optional data absent. -/
def sampleCOA (cid : String) : CannabisCOAReference :=
  { coa_id := cid, batch_number := "B1", strain_name := "S",
    lab_name := none, test_date := none, coa_url := none,
    thc_percentage := 0, cbd_percentage := 0, total_cannabinoids := 0,
    passed_microbial := true, passed_pesticides := true,
    passed_heavy_metals := true, passed_residual_solvents := true,
    harvest_date := none, expiration_date := none }

/-- A terpene profile with the given five pairing-relevant concentrations and
everything else zero / empty. -/
def mkProfile (lim myr car pin lin : ℚ) : TerpeneProfile :=
  { coa_reference := sampleCOA "COA-1", myrcene := myr, limonene := lim,
    caryophyllene := car, pinene := pin, linalool := lin,
    humulene := 0, terpinolene := 0, ocimene := 0,
    primary_flavors := [], aroma_notes := [], pairs_well_with := [],
    cuisine_types := [] }

/-- Fixture for the C1 witness: one ingredient at 30 mg/g used for 1 g,
2 servings, so 15 mg THC per serving. -/
def recipeC1w : Recipe := mkRecipe [(mkIngredient 30, 1)] 2

/-- Fixture for the C2 witness: nonzero doses but zero servings. -/
def recipeC2w : Recipe := mkRecipe [(mkIngredient 10, 2)] 0

/-- Fixture for the C9 witness: positive total dose, negative servings. -/
def recipeC9w : Recipe := mkRecipe [(mkIngredient 10, 1)] (-1)

/-- Fixture for C5: limonene 0.6, every other concentration 0. -/
def profC5lim : TerpeneProfile := mkProfile (6/10) 0 0 0 0

/-- Fixture for C5: myrcene exactly 0.5 (the exclusive boundary),
every other concentration 0. -/
def profC5myr : TerpeneProfile := mkProfile 0 (5/10) 0 0 0

/-- Fixture for the C10 witness. -/
def profC10a : TerpeneProfile := mkProfile (2/10) 1 0 0 0

/-- Fixture for the C10 witness: agrees with `profC10a` on the five fields
read by `suggest_pairings`, differs everywhere else. -/
def profC10b : TerpeneProfile :=
  { coa_reference := sampleCOA "COA-2", myrcene := 1, limonene := 2/10,
    caryophyllene := 0, pinene := 0, linalool := 0,
    humulene := 7/10, terpinolene := 1, ocimene := 1,
    primary_flavors := ["citrus"], aroma_notes := ["sweet"],
    pairs_well_with := ["chocolate"], cuisine_types := ["Italian"] }

/-!
Claims.
-/

/-- C1: for every recipe with a non-negative servings count (the data-model
invariant), `calculate_total_dosage` sets `high_dose_warning` to true iff
`servings > 0` and `thc_mg_per_serving > 10`; in particular the warning is
false when `thc_mg_per_serving` equals 10 exactly. -/
theorem claim_C1 (r : Recipe) (h : 0 ≤ r.servings) :
    ((r.calculate_total_dosage).high_dose_warning = true ↔
      0 < r.servings ∧ (10 : ℚ) < (r.calculate_total_dosage).thc_mg_per_serving) ∧
    ((r.calculate_total_dosage).thc_mg_per_serving = 10 →
      (r.calculate_total_dosage).high_dose_warning = false) := by
  rcases eq_or_ne r.servings 0 with hz | hnz
  · constructor
    · simp [Recipe.calculate_total_dosage, hz]
    · intro hper
      simp [Recipe.calculate_total_dosage, hz]
  · have hpos : 0 < r.servings := lt_of_le_of_ne h (Ne.symm hnz)
    constructor
    · simp [Recipe.calculate_total_dosage, hnz, hpos]
    · intro hper
      have heq : (r.calculate_total_dosage).thc_mg_per_serving =
          decDiv r.totalThc (r.servings : ℚ) := by
        simp [Recipe.calculate_total_dosage, hnz]
      rw [heq] at hper
      simp [Recipe.calculate_total_dosage, hnz, hper]

/-- C1 witness: the theorem applied to a concrete recipe (30 mg THC over
2 servings). -/
theorem claim_C1_witness :
    ((recipeC1w.calculate_total_dosage).high_dose_warning = true ↔
      0 < recipeC1w.servings ∧
        (10 : ℚ) < (recipeC1w.calculate_total_dosage).thc_mg_per_serving) ∧
    ((recipeC1w.calculate_total_dosage).thc_mg_per_serving = 10 →
      (recipeC1w.calculate_total_dosage).high_dose_warning = false) :=
  claim_C1 recipeC1w (by decide)

/-- C2: a recipe with zero servings produces a `DosageInfo` with zero
per-serving THC and CBD and no high-dose warning (the zero fallback: the
division is never executed). -/
theorem claim_C2 (r : Recipe) (h : r.servings = 0) :
    (r.calculate_total_dosage).thc_mg_per_serving = 0 ∧
    (r.calculate_total_dosage).cbd_mg_per_serving = 0 ∧
    (r.calculate_total_dosage).high_dose_warning = false := by
  refine ⟨?_, ?_, ?_⟩ <;> simp [Recipe.calculate_total_dosage, h]

/-- C2 witness: the theorem applied to a concrete zero-servings recipe with
nonzero ingredient dose. -/
theorem claim_C2_witness :
    recipeC2w.servings = 0 ∧
    ((recipeC2w.calculate_total_dosage).thc_mg_per_serving = 0 ∧
      (recipeC2w.calculate_total_dosage).cbd_mg_per_serving = 0 ∧
      (recipeC2w.calculate_total_dosage).high_dose_warning = false) :=
  ⟨rfl, claim_C2 recipeC2w rfl⟩

/-- C5: `suggest_pairings` is the concatenation, in fixed rule order, of the
five independent threshold rules, each strict at its boundary; the profile
with limonene 0.6 and all else 0 yields exactly the three limonene
suggestions, and the profile with myrcene exactly 0.5 yields nothing. -/
theorem claim_C5 :
    (∀ p : TerpeneProfile, p.suggest_pairings =
      (if p.limonene > (5 : ℚ)/10 then
        ["citrus desserts", "seafood", "light salads"] else []) ++
      (if p.myrcene > (5 : ℚ)/10 then
        ["mangoes", "tropical fruits", "herbal dishes"] else []) ++
      (if p.caryophyllene > (3 : ℚ)/10 then
        ["black pepper", "spicy foods", "dark chocolate"] else []) ++
      (if p.pinene > (3 : ℚ)/10 then
        ["rosemary", "pine nuts", "Mediterranean"] else []) ++
      (if p.linalool > (2 : ℚ)/10 then
        ["lavender", "honey", "floral desserts"] else [])) ∧
    profC5lim.suggest_pairings = ["citrus desserts", "seafood", "light salads"] ∧
    profC5myr.suggest_pairings = [] := by
  refine ⟨?_, ?_, ?_⟩
  · intro p
    simp only [TerpeneProfile.suggest_pairings]
    split_ifs <;> simp
  · norm_num [TerpeneProfile.suggest_pairings, profC5lim, mkProfile]
  · norm_num [TerpeneProfile.suggest_pairings, profC5myr, mkProfile]

/-- C6: `calculate_per_serving` divides each total by `servings` with the
zero fallback, and applied to the output of `calculate_total_dosage` it
reproduces exactly that output's per-serving fields (the two duplicated
code paths agree). -/
theorem claim_C6 :
    (∀ d : DosageInfo, d.calculate_per_serving =
      { thc_mg := if d.servings ≠ 0 then decDiv d.total_thc_mg (d.servings : ℚ) else 0
        cbd_mg := if d.servings ≠ 0 then decDiv d.total_cbd_mg (d.servings : ℚ) else 0 }) ∧
    (∀ r : Recipe, (r.calculate_total_dosage).calculate_per_serving =
      { thc_mg := (r.calculate_total_dosage).thc_mg_per_serving
        cbd_mg := (r.calculate_total_dosage).cbd_mg_per_serving }) :=
  ⟨fun _ => rfl, fun _ => rfl⟩

/-- C9: the division guard in `calculate_total_dosage` is exactly
`servings ≠ 0`: with nonzero servings the per-serving value is the decimal
quotient (so the function is total — no division-by-zero for any integer),
the zero fallback applies only at `servings = 0`, and a negative servings
count with a positive total yields a negative per-serving value rather than
the fallback. -/
theorem claim_C9 :
    (∀ r : Recipe, r.servings ≠ 0 →
      (r.calculate_total_dosage).thc_mg_per_serving =
        decDiv r.totalThc (r.servings : ℚ)) ∧
    (∀ r : Recipe, r.servings = 0 →
      (r.calculate_total_dosage).thc_mg_per_serving = 0) ∧
    (∀ r : Recipe, r.servings < 0 → 0 < r.totalThc →
      (r.calculate_total_dosage).thc_mg_per_serving < 0) := by
  refine ⟨?_, ?_, ?_⟩
  · intro r h
    simp [Recipe.calculate_total_dosage, h]
  · intro r h
    simp [Recipe.calculate_total_dosage, h]
  · intro r hneg hpos
    have hnz : r.servings ≠ 0 := ne_of_lt hneg
    have heq : (r.calculate_total_dosage).thc_mg_per_serving =
        decDiv r.totalThc (r.servings : ℚ) := by
      simp [Recipe.calculate_total_dosage, hnz]
    rw [heq]
    unfold decDiv
    apply decRound28_neg
    apply div_neg_of_pos_of_neg hpos
    exact_mod_cast hneg

/-- C9 witness: the negative-servings branch of the theorem at a concrete
recipe with 10 mg total THC and servings = -1. -/
theorem claim_C9_witness :
    (recipeC9w.calculate_total_dosage).thc_mg_per_serving < 0 := by
  apply claim_C9.2.2 recipeC9w (by decide)
  have h1 : decMul (10 : ℚ) 1 = 10 := decMul_eval 10 1 10 10 (by norm_num) (by norm_num) (by norm_num)
  have h2 : decAdd 0 (10 : ℚ) = 10 := decAdd_eval 0 10 10 10 (by norm_num) (by norm_num) (by norm_num)
  have : recipeC9w.totalThc = 10 := by
    simp only [Recipe.totalThc, recipeC9w, mkRecipe, mkIngredient, List.foldl,
      CannabisIngredient.calculate_thc_dose, h1, h2]
  rw [this]
  norm_num

/-- C10: `suggest_pairings` reads only the limonene, myrcene, caryophyllene,
pinene and linalool concentrations: profiles agreeing on those five fields
produce identical suggestions whatever their other fields hold. -/
theorem claim_C10 (p q : TerpeneProfile)
    (h1 : p.limonene = q.limonene) (h2 : p.myrcene = q.myrcene)
    (h3 : p.caryophyllene = q.caryophyllene) (h4 : p.pinene = q.pinene)
    (h5 : p.linalool = q.linalool) :
    p.suggest_pairings = q.suggest_pairings := by
  simp only [TerpeneProfile.suggest_pairings]
  rw [h1, h2, h3, h4, h5]

/-- C10 witness: two profiles that differ in humulene, terpinolene, ocimene,
the COA reference and every stored list, but agree on the five read fields,
get the same suggestions. -/
theorem claim_C10_witness :
    profC10a.humulene ≠ profC10b.humulene ∧
    profC10a.suggest_pairings = profC10b.suggest_pairings :=
  ⟨by norm_num [profC10a, profC10b, mkProfile],
    claim_C10 profC10a profC10b rfl rfl rfl rfl rfl⟩

lemma decRound28_fix_frac (q : ℚ) (m : ℤ) (u : ℕ) (hq : q = (m : ℚ) / (10 : ℚ) ^ u)
    (hm : |m| < 10 ^ (28 : ℕ)) : decRound28 q = q := by
  apply decRound28_of_rep
  refine ⟨m, (u : ℤ), ?_, hm⟩
  rw [hq, zpow_natCast]

lemma rep_totalThc (r : Recipe) : Rep r.totalThc := by
  unfold Recipe.totalThc
  have key : ∀ (l : List (CannabisIngredient × ℚ)) (a : ℚ), Rep a →
      Rep (l.foldl (fun acc p => decAdd acc (p.1.calculate_thc_dose p.2)) a) := by
    intro l
    induction l with
    | nil => intro a ha; exact ha
    | cons x xs ih =>
      intro a ha
      rw [List.foldl_cons]
      apply ih
      unfold decAdd
      exact rep_decRound28 _
  exact key _ 0 rep_zero

/-- Fixture for the C3 counterexample: total THC 1 mg over 3 servings. -/
def cexRecipeC3 : Recipe := mkRecipe [(mkIngredient 1, 1)] 3

/-- Fixture for the C3 witness: total THC 20 mg over 2 servings
(an exact decimal division). -/
def wrecipeC3 : Recipe := mkRecipe [(mkIngredient 20, 1)] 2

lemma cexRecipeC3_totalThc : cexRecipeC3.totalThc = 1 := by
  have h1 : decMul (1 : ℚ) 1 = 1 :=
    decMul_eval 1 1 1 1 (by norm_num) (by norm_num) (by norm_num)
  have h2 : decAdd 0 (1 : ℚ) = 1 :=
    decAdd_eval 0 1 1 1 (by norm_num) (by norm_num) (by norm_num)
  simp only [Recipe.totalThc, cexRecipeC3, mkRecipe, mkIngredient, List.foldl,
    CannabisIngredient.calculate_thc_dose, h1, h2]

lemma decDiv_one_three :
    decDiv (1 : ℚ) 3 = (3333333333333333333333333333 : ℚ) / 10 ^ (28 : ℕ) := by
  unfold decDiv
  have h := decRound28_down_pos (1/3) (-1) 3333333333333333333333333333 28
    (by norm_num) (by norm_num)
    (by rw [zpow_neg, zpow_one]; norm_num)
    (by norm_num) (by push_cast; norm_num) (by push_cast; norm_num)
  rw [h]
  norm_num

/-- C3 counterexample: for the recipe with 1 mg total THC and 3 servings,
re-multiplying `thc_mg_per_serving` by `servings` does not recover
`total_thc_mg` — the 28-digit decimal division of 1 by 3 loses rounding
(the product is 0.9999999999999999999999999999, both as the decimal product
the code would compute and as the exact rational product). -/
theorem claim_C3_counterexample :
    0 < cexRecipeC3.servings ∧
    (cexRecipeC3.calculate_total_dosage).thc_mg_per_serving *
        ((cexRecipeC3.servings : ℤ) : ℚ) ≠
      (cexRecipeC3.calculate_total_dosage).total_thc_mg ∧
    decMul (cexRecipeC3.calculate_total_dosage).thc_mg_per_serving
        (((cexRecipeC3.servings : ℤ) : ℚ)) ≠
      (cexRecipeC3.calculate_total_dosage).total_thc_mg := by
  have hs : cexRecipeC3.servings = 3 := rfl
  have hsne : cexRecipeC3.servings ≠ 0 := by rw [hs]; norm_num
  have htotal : (cexRecipeC3.calculate_total_dosage).total_thc_mg = 1 := by
    rw [show (cexRecipeC3.calculate_total_dosage).total_thc_mg = cexRecipeC3.totalThc
      from rfl, cexRecipeC3_totalThc]
  have hper : (cexRecipeC3.calculate_total_dosage).thc_mg_per_serving =
      (3333333333333333333333333333 : ℚ) / 10 ^ (28 : ℕ) := by
    have h1 : (cexRecipeC3.calculate_total_dosage).thc_mg_per_serving =
        decDiv cexRecipeC3.totalThc ((cexRecipeC3.servings : ℤ) : ℚ) := by
      simp [Recipe.calculate_total_dosage, hsne]
    rw [h1, cexRecipeC3_totalThc, hs]
    rw [show (((3 : ℤ) : ℚ)) = 3 from by norm_num]
    exact decDiv_one_three
  refine ⟨by rw [hs]; norm_num, ?_, ?_⟩
  · rw [hper, htotal, hs]
    push_cast
    norm_num
  · rw [hper, htotal, hs]
    rw [show (((3 : ℤ) : ℚ)) = 3 from by norm_num]
    have hmul : decMul ((3333333333333333333333333333 : ℚ) / 10 ^ (28 : ℕ)) 3 =
        (9999999999999999999999999999 : ℚ) / 10 ^ (28 : ℕ) := by
      unfold decMul
      rw [show (3333333333333333333333333333 : ℚ) / 10 ^ (28 : ℕ) * 3 =
        (9999999999999999999999999999 : ℚ) / 10 ^ (28 : ℕ) from by ring]
      exact decRound28_fix_frac _ 9999999999999999999999999999 28
        (by push_cast; norm_num) (by norm_num)
    rw [hmul]
    norm_num

/-- C3 (amended): with positive servings, `total_thc_mg` equals
`thc_mg_per_serving * servings` (both as exact product and as the decimal
product) whenever the decimal division `total / servings` introduces no
rounding; the unrestricted claim fails because the 28-significant-digit
division is inexact in general. -/
theorem claim_C3 (r : Recipe) (hpos : 0 < r.servings)
    (hexact : decDiv r.totalThc ((r.servings : ℤ) : ℚ) =
      r.totalThc / ((r.servings : ℤ) : ℚ)) :
    (r.calculate_total_dosage).thc_mg_per_serving * ((r.servings : ℤ) : ℚ) =
      (r.calculate_total_dosage).total_thc_mg ∧
    decMul (r.calculate_total_dosage).thc_mg_per_serving (((r.servings : ℤ) : ℚ)) =
      (r.calculate_total_dosage).total_thc_mg := by
  have hnz : r.servings ≠ 0 := ne_of_gt hpos
  have hq : (((r.servings : ℤ) : ℚ)) ≠ 0 := Int.cast_ne_zero.mpr hnz
  have hper : (r.calculate_total_dosage).thc_mg_per_serving =
      r.totalThc / ((r.servings : ℤ) : ℚ) := by
    simp [Recipe.calculate_total_dosage, hnz, hexact]
  have htotal : (r.calculate_total_dosage).total_thc_mg = r.totalThc := rfl
  constructor
  · rw [hper, htotal, div_mul_cancel₀ _ hq]
  · rw [hper, htotal]
    unfold decMul
    rw [div_mul_cancel₀ _ hq]
    exact decRound28_of_rep _ (rep_totalThc r)

/-- C3 witness: the amended theorem at a recipe whose division is exact
(20 mg over 2 servings). -/
theorem claim_C3_witness :
    (wrecipeC3.calculate_total_dosage).thc_mg_per_serving *
        ((wrecipeC3.servings : ℤ) : ℚ) =
      (wrecipeC3.calculate_total_dosage).total_thc_mg ∧
    decMul (wrecipeC3.calculate_total_dosage).thc_mg_per_serving
        (((wrecipeC3.servings : ℤ) : ℚ)) =
      (wrecipeC3.calculate_total_dosage).total_thc_mg := by
  apply claim_C3 wrecipeC3 (by decide)
  have htot : wrecipeC3.totalThc = 20 := by
    have h1 : decMul (20 : ℚ) 1 = 20 :=
      decMul_eval 20 1 20 20 (by norm_num) (by norm_num) (by norm_num)
    have h2 : decAdd 0 (20 : ℚ) = 20 :=
      decAdd_eval 0 20 20 20 (by norm_num) (by norm_num) (by norm_num)
    simp only [Recipe.totalThc, wrecipeC3, mkRecipe, mkIngredient, List.foldl,
      CannabisIngredient.calculate_thc_dose, h1, h2]
  have hs : wrecipeC3.servings = 2 := rfl
  rw [htot, hs, show (((2 : ℤ) : ℚ)) = 2 from by norm_num]
  rw [decDiv_eval 20 2 10 10 (by norm_num) (by norm_num) (by norm_num)]
  norm_num

/-- Fixture for the C4 counterexample: a potency whose product with 11 grams
needs 29 significant digits. -/
def cexIngC4 : CannabisIngredient := mkIngredient (1 + 1 / 10 ^ (27 : ℕ))

/-- C4 counterexample: with non-negative potency `1 + 10⁻²⁷` and quantity 11,
`calculate_thc_dose` is not the exact product — the 29-digit exact product is
rounded back to 28 significant digits by the decimal context. -/
theorem claim_C4_counterexample :
    0 ≤ cexIngC4.thc_mg_per_gram ∧ (0 : ℚ) ≤ 11 ∧
    cexIngC4.calculate_thc_dose 11 ≠ cexIngC4.thc_mg_per_gram * 11 := by
  have hp : cexIngC4.thc_mg_per_gram = 1 + 1 / 10 ^ (27 : ℕ) := rfl
  refine ⟨by rw [hp]; positivity, by norm_num, ?_⟩
  have hdose : cexIngC4.calculate_thc_dose 11 =
      (1100000000000000000000000001 : ℚ) / 10 ^ (26 : ℕ) := by
    show decMul cexIngC4.thc_mg_per_gram 11 = _
    rw [hp]
    unfold decMul
    have h := decRound28_down_pos ((1 + 1 / 10 ^ (27 : ℕ)) * 11) 1
      1100000000000000000000000001 26 (by norm_num)
      (by positivity)
      (by rw [zpow_one]; norm_num)
      (by norm_num) (by push_cast; norm_num) (by push_cast; norm_num)
    rw [h]
    norm_num
  rw [hdose, hp]
  norm_num

/-- C4 (amended): `calculate_thc_dose` / `calculate_cbd_dose` return the
exact product `potency * quantity` whenever that product is representable in
28 significant decimal digits (which covers every realistic potency and
quantity; there is no clamping, and rounding occurs only beyond the decimal
context precision), and a zero quantity always gives a zero dose. -/
theorem claim_C4 :
    (∀ ing : CannabisIngredient, ∀ q : ℚ, Rep (ing.thc_mg_per_gram * q) →
      ing.calculate_thc_dose q = ing.thc_mg_per_gram * q) ∧
    (∀ ing : CannabisIngredient, ∀ q : ℚ, Rep (ing.cbd_mg_per_gram * q) →
      ing.calculate_cbd_dose q = ing.cbd_mg_per_gram * q) ∧
    (∀ ing : CannabisIngredient,
      ing.calculate_thc_dose 0 = 0 ∧ ing.calculate_cbd_dose 0 = 0) := by
  refine ⟨?_, ?_, ?_⟩
  · intro ing q h
    exact decRound28_of_rep _ h
  · intro ing q h
    exact decRound28_of_rep _ h
  · intro ing
    constructor <;>
      simp [CannabisIngredient.calculate_thc_dose,
        CannabisIngredient.calculate_cbd_dose, decMul, decRound28_zero]

/-- C4 witness: the amended theorem at potency 1.5 mg/g and 2 g. -/
theorem claim_C4_witness :
    (mkIngredient (3/2)).calculate_thc_dose 2 =
      (mkIngredient (3/2)).thc_mg_per_gram * 2 :=
  claim_C4.1 (mkIngredient (3/2)) 2
    ⟨3, 0, by norm_num [mkIngredient], by norm_num⟩

/-- Fixture for C7: ingredient A, 10 mg THC per gram. -/
def ingA : CannabisIngredient := mkIngredient 10

/-- Fixture for C7: ingredient B, 5 mg THC per gram. -/
def ingB : CannabisIngredient := mkIngredient 5

/-- Fixture for C7: A at 2 g and B at 1 g, 3 servings. -/
def recipeAB3 : Recipe := mkRecipe [(ingA, 2), (ingB, 1)] 3

/-- Fixture for C7: the same ingredients with 1 serving. -/
def recipeAB1 : Recipe := mkRecipe [(ingA, 2), (ingB, 1)] 1

lemma recipeAB_totalThc (s : ℤ) :
    (mkRecipe [(ingA, 2), (ingB, 1)] s).totalThc = 25 := by
  have hm1 : decMul (10 : ℚ) 2 = 20 :=
    decMul_eval 10 2 20 20 (by norm_num) (by norm_num) (by norm_num)
  have hm2 : decMul (5 : ℚ) 1 = 5 :=
    decMul_eval 5 1 5 5 (by norm_num) (by norm_num) (by norm_num)
  have ha1 : decAdd 0 (20 : ℚ) = 20 :=
    decAdd_eval 0 20 20 20 (by norm_num) (by norm_num) (by norm_num)
  have ha2 : decAdd 20 (5 : ℚ) = 25 :=
    decAdd_eval 20 5 25 25 (by norm_num) (by norm_num) (by norm_num)
  simp only [Recipe.totalThc, mkRecipe, ingA, ingB, mkIngredient, List.foldl,
    CannabisIngredient.calculate_thc_dose, hm1, hm2, ha1, ha2]

lemma decDiv_25_3 :
    decDiv (25 : ℚ) 3 = (8333333333333333333333333333 : ℚ) / 10 ^ (27 : ℕ) := by
  unfold decDiv
  have h := decRound28_down_pos (25/3) 0 8333333333333333333333333333 27
    (by norm_num) (by norm_num)
    (by rw [zpow_zero]; norm_num)
    (by norm_num) (by push_cast; norm_num) (by push_cast; norm_num)
  rw [h]
  norm_num

/-- C7: the two-ingredient scenario (10 mg/g at 2 g plus 5 mg/g at 1 g):
with 3 servings the totals are 25 mg, per-serving about 8.33 mg
(8.333333333333333333333333333 exactly, under 10), no warning; with
1 serving the per-serving dose is 25 mg and the warning fires. -/
theorem claim_C7 :
    (recipeAB3.calculate_total_dosage).total_thc_mg = 25 ∧
    (recipeAB3.calculate_total_dosage).thc_mg_per_serving =
      (8333333333333333333333333333 : ℚ) / 10 ^ (27 : ℕ) ∧
    (833/100 : ℚ) ≤ (recipeAB3.calculate_total_dosage).thc_mg_per_serving ∧
    (recipeAB3.calculate_total_dosage).thc_mg_per_serving < 834/100 ∧
    (recipeAB3.calculate_total_dosage).high_dose_warning = false ∧
    (recipeAB1.calculate_total_dosage).total_thc_mg = 25 ∧
    (recipeAB1.calculate_total_dosage).thc_mg_per_serving = 25 ∧
    (recipeAB1.calculate_total_dosage).high_dose_warning = true := by
  have hs3 : recipeAB3.servings = 3 := rfl
  have hs1 : recipeAB1.servings = 1 := rfl
  have hne3 : recipeAB3.servings ≠ 0 := by rw [hs3]; norm_num
  have hne1 : recipeAB1.servings ≠ 0 := by rw [hs1]; norm_num
  have ht3 : (recipeAB3.calculate_total_dosage).total_thc_mg = 25 := by
    show recipeAB3.totalThc = 25
    exact recipeAB_totalThc 3
  have ht1 : (recipeAB1.calculate_total_dosage).total_thc_mg = 25 := by
    show recipeAB1.totalThc = 25
    exact recipeAB_totalThc 1
  have hdiv3 : decDiv recipeAB3.totalThc ((recipeAB3.servings : ℤ) : ℚ) =
      (8333333333333333333333333333 : ℚ) / 10 ^ (27 : ℕ) := by
    rw [show recipeAB3.totalThc = 25 from recipeAB_totalThc 3, hs3,
      show (((3 : ℤ) : ℚ)) = 3 from by norm_num]
    exact decDiv_25_3
  have hdiv1 : decDiv recipeAB1.totalThc ((recipeAB1.servings : ℤ) : ℚ) = 25 := by
    rw [show recipeAB1.totalThc = 25 from recipeAB_totalThc 1, hs1,
      show (((1 : ℤ) : ℚ)) = 1 from by norm_num]
    exact decDiv_eval 25 1 25 25 (by norm_num) (by norm_num) (by norm_num)
  have hper3 : (recipeAB3.calculate_total_dosage).thc_mg_per_serving =
      (8333333333333333333333333333 : ℚ) / 10 ^ (27 : ℕ) := by
    simp only [Recipe.calculate_total_dosage, if_pos hne3]
    exact hdiv3
  have hper1 : (recipeAB1.calculate_total_dosage).thc_mg_per_serving = 25 := by
    simp only [Recipe.calculate_total_dosage, if_pos hne1]
    exact hdiv1
  have hw3 : (recipeAB3.calculate_total_dosage).high_dose_warning = false := by
    simp only [Recipe.calculate_total_dosage, if_pos hne3]
    rw [hdiv3]
    simp only [decide_eq_false_iff_not]
    norm_num
  have hw1 : (recipeAB1.calculate_total_dosage).high_dose_warning = true := by
    simp only [Recipe.calculate_total_dosage, if_pos hne1]
    rw [hdiv1]
    simp only [decide_eq_true_eq]
    norm_num
  refine ⟨ht3, hper3, ?_, ?_, hw3, ht1, hper1, hw1⟩
  · rw [hper3]; norm_num
  · rw [hper3]; norm_num

/-- C8 counterexample: constructing a recipe record with the
out-of-vocabulary category string `"bogus"` does not fail — the plain
dataclass stores the raw value unchanged — even though `"bogus"` is outside
the `RecipeCategory` (and `IngredientType`) vocabulary. -/
theorem claim_C8_counterexample :
    (Recipe.constructWithRawCategory "bogus").category = "bogus" ∧
    RecipeCategory.fromString "bogus" = none ∧
    IngredientType.fromString "bogus" = none := by
  refine ⟨rfl, ?_, ?_⟩ <;> decide

/-- C8 (amended): dataclass construction performs no vocabulary validation —
any string is stored as-is, so an invalid value fails only later at use, if
ever; rejection of out-of-vocabulary strings happens only when a value is
explicitly converted through the enum (Python raises `ValueError`, and there
is no `ValidationError` mechanism in the code), which accepts exactly the
vocabulary strings. -/
theorem claim_C8 :
    (∀ v : String, (Recipe.constructWithRawCategory v).category = v) ∧
    (∀ c : RecipeCategory, RecipeCategory.fromString c.value = some c) ∧
    (∀ t : IngredientType, IngredientType.fromString t.value = some t) := by
  refine ⟨fun _ => rfl, ?_, ?_⟩
  · intro c
    cases c <;> decide
  · intro t
    cases t <;> decide

end CdesFs
